import Mathlib

/-!
Shallow embedding of the Linka marketplace backend (order service, payment
service, inventory service) and proofs about the order fulfillment saga:
order creation and pricing, inventory reservation and release, the order
status state machine, wallet top-up limits, refunds, and stock adjustment.

Conventions of the embedding:
* database tables are Lean lists threaded through each endpoint function;
* money is ℚ (python Decimal arithmetic on these programs is exact
  rational arithmetic with power-of-ten denominators);
* an endpoint returns `Db × Except Err α`: the state at the moment the
  endpoint finished or raised, so that no-mutation-on-failure is a real
  statement about the sequencing of the source code;
* FastAPI background tasks are reified as a `BgTask` list returned by the
  endpoint and executed afterwards by `runTasks`, mirroring that they run
  only after the response is committed;
* Supabase stored procedures (reserve_inventory, release_inventory_reservation,
  credit_wallet_balance, ...) are not part of the repository; they are
  modelled from the spec, which is noted at each such definition.
-/

namespace Linka

namespace OrderSvc

/-- Row of the products table, with the fields create_order reads. -/
structure Product where
  id : String
  retailer_id : String
  status : String
  price : ℚ
  name : String
  sku : Option String
deriving DecidableEq, Inhabited

/-- Row of the product_variants table. -/
structure Variant where
  id : String
  product_id : String
  price : ℚ
  name : String
  sku : String
deriving DecidableEq, Inhabited

/-- Row of the inventory table: on-hand quantity and reserved quantity
per (product, variant, warehouse). -/
structure InvRow where
  id : String
  product_id : String
  variant_id : Option String
  warehouse_id : String
  quantity : Int
  reserved_quantity : Int
deriving DecidableEq, Inhabited

/-- Modelled from the spec: the generated `available_quantity` column read by
create_order; §3 of the spec defines available = on_hand - reserved, and the
inventory service computes the same difference (get_product_inventory). -/
def InvRow.available_quantity (r : InvRow) : Int :=
  r.quantity - r.reserved_quantity

/-- A reservation recorded by the reserve_inventory stored procedure,
keyed by a reference (the order id). -/
structure Reservation where
  product_id : String
  variant_id : Option String
  warehouse_id : String
  quantity : Nat
  reference_type : String
  reference_id : String
  active : Bool
deriving DecidableEq, Inhabited

/-- Row of the orders table, with the columns the order service writes. -/
structure Order where
  id : String
  order_number : String
  customer_id : String
  retailer_id : String
  status : String
  payment_status : String
  subtotal : ℚ
  tax_amount : ℚ
  shipping_amount : ℚ
  total_amount : ℚ
  payment_method : String
  customer_notes : Option String
  confirmed_at : Option Nat
  shipped_at : Option Nat
  delivered_at : Option Nat
  cancelled_at : Option Nat
  fulfillment_status : Option String
  cancellation_reason : Option String
deriving DecidableEq, Inhabited

/-- Row of the order_items table (the fields relevant to the claims). -/
structure OrderItem where
  order_id : String
  product_id : String
  variant_id : Option String
  warehouse_id : Option String
  product_name : String
  quantity : Nat
  unit_price : ℚ
  total_price : ℚ
deriving DecidableEq, Inhabited

/-- Wallet ledger row (shared with the payment service); included here to
state what the order service does, and does not do, to wallets. -/
structure Wallet where
  user_id : String
  balance : ℚ
deriving DecidableEq, Inhabited

/-- The slice of the database the order service touches. -/
structure Db where
  products : List Product
  product_variants : List Variant
  inventory : List InvRow
  orders : List Order
  order_items : List OrderItem
  reservations : List Reservation
  wallets : List Wallet
deriving DecidableEq, Inhabited

/-- OrderItemCreate request model (quantity is validated gt 0 by pydantic). -/
structure OrderItemCreate where
  product_id : String
  variant_id : Option String
  quantity : Nat
deriving DecidableEq, Inhabited

/-- OrderCreate request model (address snapshots elided: no claim reads them). -/
structure OrderCreate where
  retailer_id : String
  items : List OrderItemCreate
  customer_notes : Option String
  payment_method : String
deriving DecidableEq, Inhabited

/-- The authenticated actor, as produced by the auth middleware. -/
structure AuthUser where
  id : String
  role : String
deriving DecidableEq, Inhabited

/-- Errors raised by the order service endpoints, one constructor per
distinct raise site (HTTP status in the comment). -/
inductive SvcErr where
  /-- 422: pydantic request validation failed. -/
  | validation422
  /-- 400: "Product ... not available" (missing or inactive product). -/
  | productNotAvailable (product_id : String)
  /-- 400: "Insufficient stock for ..." -/
  | insufficientStock (product_name : String)
  /-- 404: "Order not found". -/
  | orderNotFound
  /-- 403: "Access denied" / customer restriction. -/
  | accessDenied
  /-- 400: "Cannot transition from ... to ..." -/
  | invalidTransition (from_status to_status : String)
deriving DecidableEq, Inhabited

/-- Inventory rows matching the create_order inventory query: filter on
product_id, and on variant_id only when the request names a variant. -/
def matchesItemInventory (it : OrderItemCreate) (r : InvRow) : Bool :=
  r.product_id = it.product_id &&
    (match it.variant_id with
     | some v => r.variant_id = some v
     | none => true)

/-- The inventory query create_order issues for one requested item. -/
def queryInventory (db : Db) (it : OrderItemCreate) : List InvRow :=
  db.inventory.filter (matchesItemInventory it)

/-- Sum of available_quantity over the rows returned for an item. -/
def totalAvailable (db : Db) (it : OrderItemCreate) : Int :=
  ((queryInventory db it).map (fun r => r.available_quantity)).sum

/-- The per-item dict create_order appends to its order_items list. -/
structure BuiltItem where
  product_id : String
  variant_id : Option String
  warehouse_id : Option String
  product_name : String
  quantity : Nat
  unit_price : ℚ
  total_price : ℚ
deriving DecidableEq, Inhabited

/-- One iteration of the create_order validation loop: resolve the product
(fail if missing or not active), take the variant price override when the
variant row exists, check summed available stock, and build the item dict.
No database write happens here. -/
def buildItem (db : Db) (it : OrderItemCreate) : Except SvcErr BuiltItem :=
  match db.products.find? (fun p => p.id = it.product_id) with
  | none => .error (.productNotAvailable it.product_id)
  | some product =>
    if product.status ≠ "active" then .error (.productNotAvailable it.product_id)
    else
      let variant : Option Variant := match it.variant_id with
        | some vid =>
            db.product_variants.find? (fun v => v.id = vid && v.product_id = it.product_id)
        | none => none
      let unit_price := match variant with
        | some v => v.price
        | none => product.price
      let inventory := queryInventory db it
      if totalAvailable db it < (it.quantity : Int) then
        .error (.insufficientStock product.name)
      else
        .ok { product_id := it.product_id
              variant_id := it.variant_id
              warehouse_id := (inventory.head?).map (fun r => r.warehouse_id)
              product_name := product.name
              quantity := it.quantity
              unit_price := unit_price
              total_price := unit_price * (it.quantity : ℚ) }

/-- The whole validation loop of create_order, left to right, stopping at
the first failing item exactly as the python for-loop raises. -/
def buildItems (db : Db) : List OrderItemCreate → Except SvcErr (List BuiltItem)
  | [] => .ok []
  | it :: rest =>
    match buildItem db it with
    | .error e => .error e
    | .ok b =>
      match buildItems db rest with
      | .error e => .error e
      | .ok bs => .ok (b :: bs)

/-- Background tasks enqueued by the order service endpoints; they execute
after the HTTP response, in the order they were added. -/
inductive BgTask where
  | reserveInventory (order_id : String) (items : List BuiltItem)
  | releaseInventory (order_id : String)
  | sendNotification (order_id customer_id status : String)
deriving DecidableEq, Inhabited

/-- Response payload of POST /orders. -/
structure CreateOrderResult where
  id : String
  order_number : String
  status : String
  total_amount : ℚ
deriving DecidableEq, Inhabited

/-- The order_items row persisted for a built item. -/
def orderItemOfBuilt (oid : String) (b : BuiltItem) : OrderItem :=
  { order_id := oid
    product_id := b.product_id
    variant_id := b.variant_id
    warehouse_id := b.warehouse_id
    product_name := b.product_name
    quantity := b.quantity
    unit_price := b.unit_price
    total_price := b.total_price }

/-- POST /orders. Validates every item (pure reads), computes the totals with
Decimal arithmetic, persists the order row and its order_items rows, and
enqueues inventory reservation as a background task. payment_status is the
database default pending. new_order_id and new_order_number stand for the
identifiers minted by the database on insert. -/
def create_order (db : Db) (user : AuthUser) (req : OrderCreate)
    (new_order_id new_order_number : String) :
    Db × Except SvcErr (CreateOrderResult × List BgTask) :=
  if !(req.items.all (fun it => decide (0 < it.quantity))) then
    (db, .error .validation422)
  else
    match buildItems db req.items with
    | .error e => (db, .error e)
    | .ok built =>
      let subtotal : ℚ := (built.map (fun b => b.total_price)).sum
      let tax_amount : ℚ := subtotal * (16 / 100)
      let shipping_amount : ℚ := 25
      let total_amount : ℚ := subtotal + tax_amount + shipping_amount
      let newOrder : Order :=
        { id := new_order_id
          order_number := new_order_number
          customer_id := user.id
          retailer_id := req.retailer_id
          status := "pending"
          payment_status := "pending"
          subtotal := subtotal
          tax_amount := tax_amount
          shipping_amount := shipping_amount
          total_amount := total_amount
          payment_method := req.payment_method
          customer_notes := req.customer_notes
          confirmed_at := none
          shipped_at := none
          delivered_at := none
          cancelled_at := none
          fulfillment_status := none
          cancellation_reason := none }
      let db' : Db :=
        { db with
          orders := db.orders ++ [newOrder]
          order_items := db.order_items ++ built.map (orderItemOfBuilt new_order_id) }
      (db', .ok ({ id := new_order_id
                   order_number := new_order_number
                   status := "pending"
                   total_amount := total_amount },
                 [.reserveInventory new_order_id built]))

/-- Modelled from the spec: the reserve_inventory stored procedure invoked by
reserve_inventory_for_order is not in the repository; per §4.2 it atomically
checks on_hand - reserved >= quantity on the matching inventory row, and if so
increments reserved and records the reservation under the reference, else
fails with InsufficientStock (also failing when no such row exists). -/
def reserve_inventory (db : Db) (p_product_id : String) (p_variant_id : Option String)
    (p_warehouse_id : Option String) (p_quantity : Nat) (p_reference_id : String) :
    Except Unit Db :=
  match db.inventory.find? (fun r =>
      r.product_id = p_product_id && r.variant_id = p_variant_id &&
        some r.warehouse_id = p_warehouse_id) with
  | none => .error ()
  | some row =>
    if row.available_quantity < (p_quantity : Int) then .error ()
    else
      .ok { db with
            inventory := db.inventory.map (fun s =>
              if s.id = row.id then
                { s with reserved_quantity := s.reserved_quantity + p_quantity }
              else s)
            reservations := db.reservations ++
              [{ product_id := p_product_id
                 variant_id := p_variant_id
                 warehouse_id := row.warehouse_id
                 quantity := p_quantity
                 reference_type := "order"
                 reference_id := p_reference_id
                 active := true }] }

/-- Marks the first reservation satisfying p as released. -/
def deactivateFirst (p : Reservation → Bool) : List Reservation → List Reservation
  | [] => []
  | r :: rest =>
    if p r then { r with active := false } :: rest
    else r :: deactivateFirst p rest

/-- Modelled from the spec: the release_inventory_reservation stored procedure
is not in the repository; per §4.2 release it decrements reserved by the
quantity originally reserved under the reference on the matching row and
retires the reservation, and is a no-op when no active reservation for that
reference exists. The quantity argument of the call site is therefore unused:
the reservation record fixes the released quantity. -/
def release_inventory_reservation (db : Db) (p_product_id : String)
    (p_variant_id : Option String) (p_warehouse_id : Option String)
    (p_reference_id : String) : Db :=
  match db.reservations.find? (fun r =>
      r.active && r.product_id = p_product_id && r.variant_id = p_variant_id &&
        some r.warehouse_id = p_warehouse_id && r.reference_id = p_reference_id) with
  | none => db
  | some r =>
    { db with
      inventory := db.inventory.map (fun s =>
        if s.product_id = r.product_id && s.variant_id = r.variant_id &&
            s.warehouse_id = r.warehouse_id then
          { s with reserved_quantity := s.reserved_quantity - (r.quantity : Int) }
        else s)
      reservations := db.reservations |> deactivateFirst (fun x =>
        x.active && x.product_id = p_product_id && x.variant_id = p_variant_id &&
          some x.warehouse_id = p_warehouse_id && x.reference_id = p_reference_id) }

/-- The reserve_inventory_for_order background helper: calls the RPC per item;
its try/except wraps the whole loop, so the first failure abandons the rest of
the loop, keeps the reservations already made, and only logs. -/
def reserve_inventory_for_order (db : Db) (order_id : String) :
    List BuiltItem → Db
  | [] => db
  | item :: rest =>
    match reserve_inventory db item.product_id item.variant_id item.warehouse_id
        item.quantity order_id with
    | .ok db1 => reserve_inventory_for_order db1 order_id rest
    | .error _ => db

/-- The release_inventory_for_order background helper: queries the order items
once, then releases each via the RPC. -/
def release_inventory_for_order (db : Db) (order_id : String) : Db :=
  (db.order_items.filter (fun it => it.order_id = order_id)).foldl
    (fun d it =>
      release_inventory_reservation d it.product_id it.variant_id it.warehouse_id order_id)
    db

/-- Executes one background task. Notification delivery goes to an external
collaborator and mutates none of the modelled tables. -/
def runTask (db : Db) : BgTask → Db
  | .reserveInventory oid items => reserve_inventory_for_order db oid items
  | .releaseInventory oid => release_inventory_for_order db oid
  | .sendNotification _ _ _ => db

/-- Executes the queued background tasks in order. -/
def runTasks (db : Db) (ts : List BgTask) : Db :=
  ts.foldl runTask db

/-- The valid_transitions dict of update_order_status, verbatim: terminal
statuses are simply absent. -/
def valid_transitions : String → Option (List String)
  | "pending" => some ["confirmed", "cancelled"]
  | "confirmed" => some ["processing", "cancelled"]
  | "processing" => some ["ready_for_pickup", "cancelled"]
  | "ready_for_pickup" => some ["out_for_delivery"]
  | "out_for_delivery" => some ["delivered"]
  | _ => none

/-- The regex alternation of the OrderStatusUpdate pydantic pattern, as the
list of exactly the literals it admits. -/
def statusPattern : List String :=
  ["confirmed", "processing", "ready_for_pickup", "out_for_delivery",
   "delivered", "cancelled"]

/-- Request validation of OrderStatusUpdate.status: the anchored alternation
accepts a string iff it is one of the six literals. -/
def statusPatternOk (s : String) : Bool :=
  statusPattern.contains s

/-- The update_data written by update_order_status: the new status plus the
per-status stamps. -/
def applyStatusUpdate (o : Order) (new_status : String) (notes : Option String)
    (now : Nat) : Order :=
  let o1 := { o with status := new_status }
  if new_status = "confirmed" then { o1 with confirmed_at := some now }
  else if new_status = "out_for_delivery" then { o1 with shipped_at := some now }
  else if new_status = "delivered" then
    { o1 with delivered_at := some now, fulfillment_status := some "fulfilled" }
  else if new_status = "cancelled" then
    { o1 with cancelled_at := some now, cancellation_reason := notes }
  else o1

/-- PATCH /orders/{id}/status. Pydantic pattern check, lookup, permission
checks, the transition-table check (skipped when the current status is not a
key of the table, exactly as in the source), then the write and the queued
background tasks (inventory release first when cancelling, then the
notification). now stands for datetime.utcnow. -/
def update_order_status_found (db : Db) (order : Order) (order_id : String)
    (user : AuthUser) (new_status : String) (notes : Option String) (now : Nat) :
    Db × Except SvcErr (List BgTask) :=
  if user.role = "retailer" && order.retailer_id ≠ user.id then
    (db, .error .accessDenied)
  else if user.role = "customer" &&
      !(new_status = "cancelled" && order.status = "pending") then
    (db, .error .accessDenied)
  else if (match valid_transitions order.status with
      | some allowed => !(allowed.contains new_status)
      | none => false) then
    (db, .error (.invalidTransition order.status new_status))
  else
    let db' : Db :=
      { db with
        orders := db.orders.map (fun o =>
          if o.id = order_id then applyStatusUpdate o new_status notes now
          else o) }
    let tasks :=
      (if new_status = "cancelled" then [BgTask.releaseInventory order_id]
       else [])
      ++ [BgTask.sendNotification order_id order.customer_id new_status]
    (db', .ok tasks)

/-- PATCH /orders/{id}/status, entry point: the pydantic pattern gate and the
order lookup, delegating to the permission and transition logic above. -/
def update_order_status (db : Db) (order_id : String) (user : AuthUser)
    (new_status : String) (notes : Option String) (now : Nat) :
    Db × Except SvcErr (List BgTask) :=
  if !(statusPatternOk new_status) then (db, .error .validation422)
  else
    match db.orders.find? (fun o => o.id = order_id) with
    | none => (db, .error .orderNotFound)
    | some order =>
      update_order_status_found db order order_id user new_status notes now

end OrderSvc

namespace PaySvc

/-- Row of the payments table, with the fields process_refund reads. -/
structure Payment where
  id : String
  order_id : String
  user_id : String
  amount : ℚ
  status : String
deriving DecidableEq, Inhabited

/-- Row of the refunds table. -/
structure Refund where
  id : String
  original_payment_id : String
  user_id : String
  amount : ℚ
  reason : String
  status : String
  processed_by : String
deriving DecidableEq, Inhabited

/-- Wallet ledger row of the payment service. -/
structure Wallet where
  user_id : String
  balance : ℚ
deriving DecidableEq, Inhabited

/-- The slice of the database the refund path touches. -/
structure PayDb where
  payments : List Payment
  wallets : List Wallet
  refunds : List Refund
deriving DecidableEq, Inhabited

/-- Errors raised by the payment service endpoints, one constructor per
distinct raise site. -/
inductive PayErr where
  /-- 422: pydantic request validation failed (amount bounds). -/
  | validation422
  /-- 404: "Payment not found". -/
  | paymentNotFound
  /-- 403: refund requested by neither the payer nor admin or support. -/
  | forbidden
  /-- 400: "Only completed payments can be refunded". -/
  | onlyCompletedRefundable
  /-- 400: "Daily limit exceeded. Remaining: ... ZMW". -/
  | limitExceeded (remaining : ℚ)
deriving DecidableEq, Inhabited

/-- Modelled from the spec: the credit_wallet_balance stored procedure is not
in the repository; per §4.3 credit it atomically increments the balance of the
per-user wallet (§3: one wallet per user, created lazily on first access). -/
def creditWallets (p_user_id : String) (p_amount : ℚ) :
    List Wallet → List Wallet
  | [] => [{ user_id := p_user_id, balance := p_amount }]
  | w :: ws =>
    if w.user_id = p_user_id then { w with balance := w.balance + p_amount } :: ws
    else w :: creditWallets p_user_id p_amount ws

/-- Balance of the per-user wallet (0 when it does not exist yet). -/
def walletBalance (db : PayDb) (uid : String) : ℚ :=
  ((db.wallets.find? (fun w => w.user_id = uid)).map (fun w => w.balance)).getD 0

/-- POST /payments/refund, found-payment branch: checks that the caller is the
payer (admin or support may act for others), requires status completed,
inserts the refund row, credits the payer wallet through the stored procedure,
and marks the payment refunded and the refund completed. The python default
for a missing or zero request amount is the full payment amount (a zero
Decimal is falsy). -/
def process_refund_found (db : PayDb) (payment : Payment) (user_id : String)
    (user_is_admin_or_support : Bool) (payment_id : String) (amount : Option ℚ)
    (reason : String) (new_refund_id : String) : PayDb × Except PayErr ℚ :=
    if payment.user_id ≠ user_id && !user_is_admin_or_support then
      (db, .error .forbidden)
    else if payment.status ≠ "completed" then
      (db, .error .onlyCompletedRefundable)
    else
      let refund_amount : ℚ :=
        match amount with
        | some a => if a = 0 then payment.amount else a
        | none => payment.amount
      let db1 : PayDb :=
        { db with refunds := db.refunds ++
            [{ id := new_refund_id
               original_payment_id := payment_id
               user_id := payment.user_id
               amount := refund_amount
               reason := reason
               status := "processing"
               processed_by := user_id }] }
      let db2 : PayDb :=
        { db1 with wallets := creditWallets payment.user_id refund_amount db1.wallets }
      let db3 : PayDb :=
        { db2 with
          payments := db2.payments.map (fun p =>
            if p.id = payment_id then { p with status := "refunded" } else p)
          refunds := db2.refunds.map (fun r =>
            if r.id = new_refund_id then { r with status := "completed" } else r) }
      (db3, .ok refund_amount)

/-- POST /payments/refund, entry point: the payment lookup, delegating to the
permission, state and crediting logic above. -/
def process_refund (db : PayDb) (user_id : String) (user_is_admin_or_support : Bool)
    (payment_id : String) (amount : Option ℚ) (reason : String)
    (new_refund_id : String) : PayDb × Except PayErr ℚ :=
  match db.payments.find? (fun p => p.id = payment_id) with
  | none => (db, .error .paymentNotFound)
  | some payment =>
    process_refund_found db payment user_id user_is_admin_or_support payment_id
      amount reason new_refund_id

/-- The BoZ tier limit of topup_wallet: 100000 when kyc_level is at least 2,
else 50000. -/
def daily_limit_for (kyc_level : Nat) : ℚ :=
  if kyc_level ≥ 2 then 100000 else 50000

/-- The admission decision of POST /wallets/topup: first the pydantic bounds
on WalletTopUpRequest.amount (gt 0, le 50000), then the daily-limit check
against the same-day deposit total; acceptance then records a pending deposit
transaction (credited later by the mobile-money webhook). daily_total stands
for the get_daily_transaction_total stored procedure result for the user and
kyc_level for the profile field read by the handler. -/
def topup_wallet (kyc_level : Nat) (daily_total : ℚ) (amount : ℚ) :
    Except PayErr Unit :=
  if !(0 < amount && amount ≤ 50000) then .error .validation422
  else if daily_total + amount > daily_limit_for kyc_level then
    .error (.limitExceeded (daily_limit_for kyc_level - daily_total))
  else .ok ()

/-- Crediting a user raises exactly that user balance by the amount (one
wallet per user, created lazily when absent). -/
theorem creditWallets_balance (uid : String) (amt : ℚ) :
    ∀ ws : List Wallet,
      (((creditWallets uid amt ws).find? (fun w => w.user_id = uid)).map
          (fun w => w.balance)).getD 0 =
        ((ws.find? (fun w => w.user_id = uid)).map (fun w => w.balance)).getD 0
          + amt := by
  intro ws
  induction ws with
  | nil => simp [creditWallets]
  | cons w rest ih =>
    by_cases hw : w.user_id = uid
    · simp [creditWallets, hw]
    · simp only [creditWallets, if_neg hw]
      rw [List.find?_cons_of_neg _ (by simp [hw]),
          List.find?_cons_of_neg _ (by simp [hw])]
      exact ih

/-- Marking one payment refunded keeps it findable by id, now refunded. -/
theorem find?_payments_updated (pid : String) (p : Payment) :
    ∀ l : List Payment, l.find? (fun q => q.id = pid) = some p →
      (l.map (fun q => if q.id = pid then { q with status := "refunded" }
          else q)).find? (fun q => q.id = pid) =
        some { p with status := "refunded" } := by
  intro l
  induction l with
  | nil => intro h; simp at h
  | cons q rest ih =>
    intro h
    by_cases hq : q.id = pid
    · rw [List.find?_cons_of_pos _ (by simp [hq])] at h
      injection h with h
      subst h
      rw [List.map_cons, if_pos hq]
      exact List.find?_cons_of_pos _ (by simp [hq])
    · rw [List.find?_cons_of_neg _ (by simp [hq])] at h
      rw [List.map_cons, if_neg hq, List.find?_cons_of_neg _ (by simp [hq])]
      exact ih h

/-- A concrete completed payment. -/
def pay1 : Payment where
  id := "pay1"
  order_id := "o1"
  user_id := "c1"
  amount := 257
  status := "completed"

/-- Payment database holding pay1 and the payer wallet at 40. -/
def payDb : PayDb where
  payments := [pay1]
  wallets := [⟨"c1", 40⟩]
  refunds := []

/-- The refund amount the handler computes: the requested amount, or the full
payment amount when the request carries none (or the falsy zero). -/
def refundAmountOf (amt : Option ℚ) (p : Payment) : ℚ :=
  match amt with
  | some a => if a = 0 then p.amount else a
  | none => p.amount

/-- The refund row inserted for a completed payment. -/
def refundRowOf (p : Payment) (user_id payment_id : String) (amt : Option ℚ)
    (reason rid : String) : Refund where
  id := rid
  original_payment_id := payment_id
  user_id := p.user_id
  amount := refundAmountOf amt p
  reason := reason
  status := "processing"
  processed_by := user_id

/-- The database state process_refund leaves behind for a completed payment:
payment marked refunded, payer wallet credited, refund row completed. -/
def refundedDb (db : PayDb) (p : Payment) (user_id payment_id : String)
    (amt : Option ℚ) (reason rid : String) : PayDb where
  payments := db.payments.map (fun q =>
    if q.id = payment_id then { q with status := "refunded" } else q)
  wallets := creditWallets p.user_id (refundAmountOf amt p) db.wallets
  refunds := (db.refunds ++ [refundRowOf p user_id payment_id amt reason rid]).map
    (fun r => if r.id = rid then { r with status := "completed" } else r)

/-- A refund of a looked-up payment that is not completed fails with the
invalid-state error and leaves the database unchanged. -/
theorem process_refund_not_completed (db : PayDb) (user_id : String) (adm : Bool)
    (payment_id : String) (amt : Option ℚ) (reason rid : String) (p : Payment)
    (hf : db.payments.find? (fun q => q.id = payment_id) = some p)
    (hperm' : (decide (p.user_id ≠ user_id) && !adm) = false)
    (hst : ¬ p.status = "completed") :
    process_refund db user_id adm payment_id amt reason rid =
      (db, .error .onlyCompletedRefundable) := by
  unfold process_refund
  rw [hf]
  show process_refund_found db p user_id adm payment_id amt reason rid = _
  unfold process_refund_found
  rw [if_neg (by rw [hperm']; simp), if_pos hst]

/-- A refund of a looked-up completed payment produces exactly refundedDb and
returns the computed refund amount. -/
theorem process_refund_completed (db : PayDb) (user_id : String) (adm : Bool)
    (payment_id : String) (amt : Option ℚ) (reason rid : String) (p : Payment)
    (hf : db.payments.find? (fun q => q.id = payment_id) = some p)
    (hperm' : (decide (p.user_id ≠ user_id) && !adm) = false)
    (hst : p.status = "completed") :
    process_refund db user_id adm payment_id amt reason rid =
      (refundedDb db p user_id payment_id amt reason rid,
       .ok (refundAmountOf amt p)) := by
  unfold process_refund
  rw [hf]
  show process_refund_found db p user_id adm payment_id amt reason rid = _
  unfold process_refund_found
  rw [if_neg (by rw [hperm']; simp), if_neg (by simp [hst])]
  rfl

/-- Claim C7: a refund of a payment that is not completed (in particular one
already refunded) fails with the invalid-state error and changes nothing;
a refund of a completed payment credits the original payer wallet with the
requested amount (or the full payment amount when none, or the falsy zero, is
given) and marks the payment refunded, after which a second refund of the
same payment fails with the invalid-state error and changes nothing further
— the payer is never credited twice. -/
theorem refund_requires_completed :
    ∀ db user_id adm payment_id amt reason rid p,
      db.payments.find? (fun q => q.id = payment_id) = some p →
      (p.user_id = user_id ∨ adm = true) →
      ((p.status ≠ "completed" →
          process_refund db user_id adm payment_id amt reason rid =
            (db, .error .onlyCompletedRefundable)) ∧
       (p.status = "completed" →
          ∃ db' ra,
            process_refund db user_id adm payment_id amt reason rid =
              (db', .ok ra) ∧
            ra = refundAmountOf amt p ∧
            walletBalance db' p.user_id = walletBalance db p.user_id + ra ∧
            db'.payments.find? (fun q => q.id = payment_id) =
              some { p with status := "refunded" } ∧
            ∀ rid2, process_refund db' user_id adm payment_id amt reason rid2 =
              (db', .error .onlyCompletedRefundable))) := by
  intro db user_id adm payment_id amt reason rid p hf hperm
  have hperm' : (decide (p.user_id ≠ user_id) && !adm) = false := by
    rcases hperm with hp | ha
    · simp [hp]
    · simp [ha]
  constructor
  · intro hst
    exact process_refund_not_completed db user_id adm payment_id amt reason rid p
      hf hperm' hst
  · intro hst
    refine ⟨refundedDb db p user_id payment_id amt reason rid,
      refundAmountOf amt p,
      process_refund_completed db user_id adm payment_id amt reason rid p
        hf hperm' hst, rfl, ?_, ?_, ?_⟩
    · exact creditWallets_balance p.user_id (refundAmountOf amt p) db.wallets
    · exact find?_payments_updated payment_id p db.payments hf
    · intro rid2
      exact process_refund_not_completed _ user_id adm payment_id amt reason rid2
        { p with status := "refunded" }
        (find?_payments_updated payment_id p db.payments hf) hperm' (by simp)

/-- Witness for C7 at the concrete completed payment pay1, refunded by its
payer for the full amount. -/
theorem refund_requires_completed_witness :
    (pay1.status ≠ "completed" →
        process_refund payDb "c1" false "pay1" none "damaged" "r1" =
          (payDb, .error .onlyCompletedRefundable)) ∧
    (pay1.status = "completed" →
        ∃ db' ra,
          process_refund payDb "c1" false "pay1" none "damaged" "r1" =
            (db', .ok ra) ∧
          ra = refundAmountOf none pay1 ∧
          walletBalance db' pay1.user_id = walletBalance payDb pay1.user_id + ra ∧
          db'.payments.find? (fun q => q.id = "pay1") =
            some { pay1 with status := "refunded" } ∧
          ∀ rid2, process_refund db' "c1" false "pay1" none "damaged" rid2 =
            (db', .error .onlyCompletedRefundable)) :=
  refund_requires_completed payDb "c1" false "pay1" none "damaged" "r1" pay1
    rfl (Or.inl rfl)

/-- Claim C6: for a top-up request passing pydantic validation, the
daily-limit check rejects with the limit-exceeded error (carrying the
remaining allowance) exactly when the same-day deposit total plus the amount
exceeds 50000 for kyc_level below 2 and 100000 otherwise; in particular
prior deposits of 15000 at KYC level 0 reject a 40000 top-up, with 35000
remaining. -/
theorem topup_daily_limit_check :
    (∀ (kyc_level : Nat) (s a : ℚ), 0 < a → a ≤ 50000 →
        (topup_wallet kyc_level s a =
            .error (.limitExceeded (daily_limit_for kyc_level - s)) ↔
          s + a > (if kyc_level < 2 then (50000 : ℚ) else 100000))) ∧
    topup_wallet 0 15000 40000 = .error (.limitExceeded 35000) := by
  constructor
  · intro k s a h0 h5
    have hl : daily_limit_for k = (if k < 2 then (50000 : ℚ) else 100000) := by
      unfold daily_limit_for
      by_cases hk : k < 2
      · rw [if_neg (by omega), if_pos hk]
      · rw [if_pos (by omega), if_neg hk]
    constructor
    · intro he
      unfold topup_wallet at he
      rw [if_neg (by simp [h0, h5])] at he
      by_cases hlim : s + a > daily_limit_for k
      · rwa [hl] at hlim
      · rw [if_neg hlim] at he
        exact absurd he (by simp)
    · intro hgt
      unfold topup_wallet
      rw [if_neg (by simp [h0, h5]), if_pos (by rw [hl]; exact hgt)]
  · norm_num [topup_wallet, daily_limit_for]

/-- Witness for C6 at KYC level 2: a 40000 top-up on 70000 of prior same-day
deposits is over the 100000 tier limit. -/
theorem topup_daily_limit_check_witness :
    topup_wallet 2 70000 40000 =
        .error (.limitExceeded (daily_limit_for 2 - 70000)) ↔
      (70000 + 40000 : ℚ) > (if (2 : Nat) < 2 then (50000 : ℚ) else 100000) :=
  topup_daily_limit_check.1 2 70000 40000 (by decide) (by decide)

/-- Claim C9: the pydantic upper bound on WalletTopUpRequest.amount rejects
any single top-up above 50000 before the KYC tier or the daily total is even
consulted, for every user. -/
theorem topup_single_transaction_cap :
    ∀ (kyc_level : Nat) (s a : ℚ), 50000 < a →
      topup_wallet kyc_level s a = .error .validation422 := by
  intro k s a h
  unfold topup_wallet
  rw [if_pos (by simp [not_le.mpr h])]

/-- Witness for C9: a 60000 top-up is rejected at validation even at KYC
level 3 with no prior deposits. -/
theorem topup_single_transaction_cap_witness :
    topup_wallet 3 0 60000 = .error .validation422 :=
  topup_single_transaction_cap 3 0 60000 (by decide)

end PaySvc

namespace InvSvc

/-- Row of the products table, with the fields the stock endpoints read. -/
structure InvProduct where
  id : String
  retailer_id : String
deriving DecidableEq, Inhabited

/-- Inventory row of the inventory service. -/
structure InvRecord where
  id : String
  product_id : String
  warehouse_id : String
  quantity : Int
  reserved_quantity : Int
deriving DecidableEq, Inhabited

/-- Append-only stock movement ledger row. -/
structure StockMovement where
  id : String
  product_id : String
  warehouse_id : String
  movement_type : String
  quantity : Int
  quantity_before : Int
  quantity_after : Int
  notes : Option String
  performed_by : String
deriving DecidableEq, Inhabited

/-- The slice of the database adjust_stock touches. -/
structure InvDb where
  products : List InvProduct
  inventory : List InvRecord
  stock_movements : List StockMovement
deriving DecidableEq, Inhabited

/-- Errors raised by adjust_stock, one constructor per raise site. -/
inductive InvErr where
  /-- 404: "Product not found" (missing or not owned by the caller). -/
  | productNotFound
  /-- 404: "Inventory record not found". -/
  | inventoryNotFound
  /-- 400: "Adjustment would result in negative stock". -/
  | negativeStock
deriving DecidableEq, Inhabited

/-- POST /products/{id}/stock/adjust, found-inventory branch: the
negative-result guard, then the quantity update and the appended movement
row. -/
def adjust_stock_found (db : InvDb) (inv : InvRecord)
    (user_id product_id warehouse_id : String) (adjustment : Int)
    (reason : Option String) (new_movement_id : String) :
    InvDb × Except InvErr Int :=
  if inv.quantity + adjustment < 0 then (db, .error .negativeStock)
  else
    ({ db with
       inventory := db.inventory.map (fun r =>
         if r.id = inv.id then { r with quantity := inv.quantity + adjustment }
         else r)
       stock_movements := db.stock_movements ++
         [{ id := new_movement_id
            product_id := product_id
            warehouse_id := warehouse_id
            movement_type := "adjustment"
            quantity := |adjustment|
            quantity_before := inv.quantity
            quantity_after := inv.quantity + adjustment
            notes := reason
            performed_by := user_id }] },
     .ok (inv.quantity + adjustment))

/-- POST /products/{id}/stock/adjust, entry point: ownership check and
inventory lookup, delegating to the guard and write above. warehouse_id
stands for the already resolved warehouse (the default-warehouse lookup is an
external read). -/
def adjust_stock (db : InvDb) (user_id product_id warehouse_id : String)
    (adjustment : Int) (reason : Option String) (new_movement_id : String) :
    InvDb × Except InvErr Int :=
  match db.products.find? (fun p => p.id = product_id && p.retailer_id = user_id) with
  | none => (db, .error .productNotFound)
  | some _ =>
    match db.inventory.find? (fun r =>
        r.product_id = product_id && r.warehouse_id = warehouse_id) with
    | none => (db, .error .inventoryNotFound)
    | some inv =>
      adjust_stock_found db inv user_id product_id warehouse_id adjustment
        reason new_movement_id

/-- A product owned by retailer r1. -/
def invProd1 : InvProduct where
  id := "p1"
  retailer_id := "r1"

/-- Its inventory row at warehouse w1: 5 on hand. -/
def invRec1 : InvRecord where
  id := "i1"
  product_id := "p1"
  warehouse_id := "w1"
  quantity := 5
  reserved_quantity := 0

/-- The concrete inventory-service state. -/
def invDb1 : InvDb where
  products := [invProd1]
  inventory := [invRec1]
  stock_movements := []

/-- Claim C8: a stock adjustment by delta against an inventory record holding
q fails with the negative-stock validation error and changes nothing when
q + delta is negative; otherwise on_hand becomes q + delta and exactly one
movement row is appended to the ledger, carrying quantity_before = q and
quantity_after = q + delta. -/
theorem adjust_stock_guard_and_ledger :
    ∀ db user_id product_id warehouse_id adjustment reason mid prod inv,
      db.products.find?
          (fun p => p.id = product_id && p.retailer_id = user_id) = some prod →
      db.inventory.find?
          (fun r => r.product_id = product_id && r.warehouse_id = warehouse_id) =
        some inv →
      ((inv.quantity + adjustment < 0 →
          adjust_stock db user_id product_id warehouse_id adjustment reason mid =
            (db, .error .negativeStock)) ∧
       (0 ≤ inv.quantity + adjustment →
          adjust_stock db user_id product_id warehouse_id adjustment reason mid =
            ({ db with
               inventory := db.inventory.map (fun r =>
                 if r.id = inv.id then
                   { r with quantity := inv.quantity + adjustment }
                 else r)
               stock_movements := db.stock_movements ++
                 [{ id := mid
                    product_id := product_id
                    warehouse_id := warehouse_id
                    movement_type := "adjustment"
                    quantity := |adjustment|
                    quantity_before := inv.quantity
                    quantity_after := inv.quantity + adjustment
                    notes := reason
                    performed_by := user_id }] },
             .ok (inv.quantity + adjustment)))) := by
  intro db user_id product_id warehouse_id adjustment reason mid prod inv hp hi
  have hred : adjust_stock db user_id product_id warehouse_id adjustment reason mid
      = adjust_stock_found db inv user_id product_id warehouse_id adjustment
          reason mid := by
    unfold adjust_stock
    rw [hp, hi]
  constructor
  · intro hneg
    rw [hred]
    unfold adjust_stock_found
    rw [if_pos hneg]
  · intro hpos
    rw [hred]
    unfold adjust_stock_found
    rw [if_neg (by omega)]

/-- Witness for C8: on the 5-on-hand record, a -7 adjustment is rejected with
nothing changed, and a -3 adjustment lands at 2 with the movement appended. -/
theorem adjust_stock_guard_and_ledger_witness :
    adjust_stock invDb1 "r1" "p1" "w1" (-7) (some "damage") "m1" =
      (invDb1, .error .negativeStock) ∧
    adjust_stock invDb1 "r1" "p1" "w1" (-3) (some "damage") "m2" =
      ({ invDb1 with
         inventory := invDb1.inventory.map (fun r =>
           if r.id = invRec1.id then
             { r with quantity := invRec1.quantity + (-3) }
           else r)
         stock_movements := invDb1.stock_movements ++
           [{ id := "m2"
              product_id := "p1"
              warehouse_id := "w1"
              movement_type := "adjustment"
              quantity := |(-3 : Int)|
              quantity_before := invRec1.quantity
              quantity_after := invRec1.quantity + (-3)
              notes := some "damage"
              performed_by := "r1" }] },
       .ok (invRec1.quantity + (-3))) :=
  ⟨(adjust_stock_guard_and_ledger invDb1 "r1" "p1" "w1" (-7) (some "damage") "m1"
      invProd1 invRec1 rfl rfl).1 (by decide),
   (adjust_stock_guard_and_ledger invDb1 "r1" "p1" "w1" (-3) (some "damage") "m2"
      invProd1 invRec1 rfl rfl).2 (by decide)⟩

end InvSvc

namespace OrderSvc

/-! Concrete fixtures used to instantiate the theorems below. -/

/-- A catalog with one active product priced 100 and ample stock. -/
def exDb : Db where
  products := [{ id := "p1", retailer_id := "r1", status := "active",
                 price := 100, name := "Gadget", sku := none }]
  product_variants := []
  inventory := [⟨"i1", "p1", none, "w1", 10, 0⟩]
  orders := []
  order_items := []
  reservations := []
  wallets := []

/-- An order request for one item of the product, quantity 2. -/
def exReq : OrderCreate where
  retailer_id := "r1"
  items := [⟨"p1", none, 2⟩]
  customer_notes := none
  payment_method := "wallet"

/-- The requesting customer. -/
def exUser : AuthUser := ⟨"u1", "customer"⟩

/-! Helper lemmas about the create_order validation loop. -/

/-- A successfully built item carries the requested quantity and a total price
equal to unit price times quantity. -/
theorem buildItem_ok_shape (db : Db) (it : OrderItemCreate) (b : BuiltItem)
    (h : buildItem db it = .ok b) :
    b.total_price = b.unit_price * (b.quantity : ℚ) ∧ b.quantity = it.quantity := by
  unfold buildItem at h
  cases hf : db.products.find? (fun p => p.id = it.product_id) with
  | none => rw [hf] at h; exact absurd h (by simp)
  | some product =>
    rw [hf] at h
    by_cases hs : product.status ≠ "active"
    · simp only [if_pos hs] at h; exact absurd h (by simp)
    · simp only [if_neg hs] at h
      by_cases hq : totalAvailable db it < (it.quantity : Int)
      · simp only [if_pos hq] at h; exact absurd h (by simp)
      · simp only [if_neg hq] at h
        injection h with h
        subst h
        exact ⟨rfl, rfl⟩

/-- Membership in a successfully built item list comes from a successful
buildItem on one of the requested items. -/
theorem buildItems_mem (db : Db) :
    ∀ its l, buildItems db its = .ok l →
      ∀ b ∈ l, ∃ it ∈ its, buildItem db it = .ok b := by
  intro its
  induction its with
  | nil =>
    intro l h b hb
    unfold buildItems at h
    injection h with h
    subst h
    simp at hb
  | cons it rest ih =>
    intro l h b hb
    unfold buildItems at h
    cases h1 : buildItem db it with
    | error e => rw [h1] at h; exact absurd h (by simp)
    | ok b0 =>
      rw [h1] at h
      cases h2 : buildItems db rest with
      | error e => rw [h2] at h; exact absurd h (by simp)
      | ok bs =>
        rw [h2] at h
        injection h with h
        subst h
        rcases List.mem_cons.mp hb with hb | hb
        · exact ⟨it, by simp, hb ▸ h1⟩
        · obtain ⟨it2, hmem, hit2⟩ := ih bs h2 b hb
          exact ⟨it2, by simp [hmem], hit2⟩

/-- Inversion of a successful create_order: the validation loop succeeded and
the result is exactly the persisted order, its items, and the queued
reservation task. -/
theorem create_order_ok_inv (db : Db) (user : AuthUser) (req : OrderCreate)
    (oid onum : String) (h : (create_order db user req oid onum).2.isOk = true) :
    ∃ built,
      buildItems db req.items = .ok built ∧
      create_order db user req oid onum =
        ({ db with
           orders := db.orders ++
             [{ id := oid
                order_number := onum
                customer_id := user.id
                retailer_id := req.retailer_id
                status := "pending"
                payment_status := "pending"
                subtotal := (built.map (fun b => b.total_price)).sum
                tax_amount := (built.map (fun b => b.total_price)).sum * (16 / 100)
                shipping_amount := 25
                total_amount := (built.map (fun b => b.total_price)).sum +
                  (built.map (fun b => b.total_price)).sum * (16 / 100) + 25
                payment_method := req.payment_method
                customer_notes := req.customer_notes
                confirmed_at := none
                shipped_at := none
                delivered_at := none
                cancelled_at := none
                fulfillment_status := none
                cancellation_reason := none }]
           order_items := db.order_items ++ built.map (orderItemOfBuilt oid) },
         .ok ({ id := oid
                order_number := onum
                status := "pending"
                total_amount := (built.map (fun b => b.total_price)).sum +
                  (built.map (fun b => b.total_price)).sum * (16 / 100) + 25 },
              [.reserveInventory oid built])) := by
  unfold create_order at h ⊢
  by_cases hv : (!req.items.all fun it => decide (0 < it.quantity)) = true
  · rw [if_pos hv] at h; simp [Except.isOk, Except.toBool] at h
  · rw [if_neg hv] at h ⊢
    cases hb : buildItems db req.items with
    | error e => rw [hb] at h; simp [Except.isOk, Except.toBool] at h
    | ok built => exact ⟨built, rfl, rfl⟩

/-- The item dict the validation loop builds for the example request. -/
def exBuilt : BuiltItem where
  product_id := "p1"
  variant_id := none
  warehouse_id := some "w1"
  product_name := "Gadget"
  quantity := 2
  unit_price := 100
  total_price := 100 * (2 : ℚ)

/-- Claim C4: for every successfully created order, the stored totals satisfy
subtotal = sum of unit_price times quantity over the items, tax_amount =
subtotal times 0.16, shipping_amount is the fixed 25 fee, and total_amount =
subtotal + tax_amount + shipping_amount, in exact decimal arithmetic; and the
worked example (one item, unit price 100, quantity 2) yields subtotal 200,
tax 32, shipping 25, total 257. -/
theorem create_order_pricing :
    (∀ db user req oid onum,
        (create_order db user req oid onum).2.isOk = true →
        ∃ o newItems res tasks,
          (create_order db user req oid onum).2 = .ok (res, tasks) ∧
          (create_order db user req oid onum).1.orders = db.orders ++ [o] ∧
          (create_order db user req oid onum).1.order_items =
            db.order_items ++ newItems ∧
          o.subtotal =
            (newItems.map (fun it => it.unit_price * (it.quantity : ℚ))).sum ∧
          o.tax_amount = o.subtotal * (16 / 100) ∧
          o.shipping_amount = 25 ∧
          o.total_amount = o.subtotal + o.tax_amount + o.shipping_amount ∧
          res.total_amount = o.total_amount) ∧
    (create_order exDb exUser exReq "o1" "N1").1.orders.map
        (fun o => (o.subtotal, o.tax_amount, o.shipping_amount, o.total_amount)) =
      [(200, 32, 25, 257)] := by
  constructor
  · intro db user req oid onum h
    obtain ⟨built, hb, heq⟩ := create_order_ok_inv db user req oid onum h
    have hshape : ∀ b ∈ built, b.total_price = b.unit_price * (b.quantity : ℚ) :=
      fun b hbm =>
        (buildItem_ok_shape db _ b
          (buildItems_mem db req.items built hb b hbm).choose_spec.2).1
    rw [heq]
    refine ⟨_, built.map (orderItemOfBuilt oid), _, _, rfl, rfl, rfl, ?_, rfl, rfl, rfl, rfl⟩
    show (built.map (fun b => b.total_price)).sum = _
    rw [List.map_map]
    exact congrArg List.sum (List.map_congr_left (fun b hbm => hshape b hbm))
  · have h : (create_order exDb exUser exReq "o1" "N1").2.isOk = true := by decide
    obtain ⟨built, hb, heq⟩ := create_order_ok_inv exDb exUser exReq "o1" "N1" h
    rw [heq]
    have hbuilt : built = [exBuilt] := by
      have hok : buildItems exDb exReq.items = .ok [exBuilt] := rfl
      rw [hok] at hb
      exact (Except.ok.inj hb).symm
    subst hbuilt
    norm_num [exBuilt, exDb, exUser, exReq, orderItemOfBuilt]

/-- Witness for C4: the pricing theorem applied at the concrete example
order (one item, unit price 100, quantity 2). -/
theorem create_order_pricing_witness :
    (create_order exDb exUser exReq "o1" "N1").2.isOk = true ∧
    (∃ o newItems res tasks,
      (create_order exDb exUser exReq "o1" "N1").2 = .ok (res, tasks) ∧
      (create_order exDb exUser exReq "o1" "N1").1.orders = exDb.orders ++ [o] ∧
      (create_order exDb exUser exReq "o1" "N1").1.order_items =
        exDb.order_items ++ newItems ∧
      o.subtotal =
        (newItems.map (fun it => it.unit_price * (it.quantity : ℚ))).sum ∧
      o.tax_amount = o.subtotal * (16 / 100) ∧
      o.shipping_amount = 25 ∧
      o.total_amount = o.subtotal + o.tax_amount + o.shipping_amount ∧
      res.total_amount = o.total_amount) :=
  ⟨by decide, create_order_pricing.1 exDb exUser exReq "o1" "N1" (by decide)⟩

/-- The example product row of exDb, named for reuse in hypotheses. -/
def exProd : Product where
  id := "p1"
  retailer_id := "r1"
  status := "active"
  price := 100
  name := "Gadget"
  sku := none

/-- A catalog whose only product is archived (not active). -/
def exBadDb : Db :=
  { exDb with products := [{ exProd with id := "p2", status := "archived" }] }

/-- A request for more units than the example catalog has available. -/
def exReq20 : OrderCreate :=
  { exReq with items := [⟨"p1", none, 20⟩] }

/-- Claim C5: create_order validates every item before any persistence: a
missing or inactive product fails the item with the product-not-available
error, a summed available quantity (on_hand - reserved over all matching
warehouse rows) below the requested quantity fails it with the
insufficient-stock error, a failing validation loop fails the whole call with
that first error and an unchanged database, and more generally every failing
create_order returns the database unchanged, so no Order row and no OrderItems
rows are created. -/
theorem create_order_validates_before_persisting :
    (∀ db it, ((db.products.find? (fun p => p.id = it.product_id)).all
          (fun p => p.status != "active")) = true →
        buildItem db it = .error (.productNotAvailable it.product_id)) ∧
    (∀ db it p, db.products.find? (fun q => q.id = it.product_id) = some p →
        p.status = "active" → totalAvailable db it < (it.quantity : Int) →
        buildItem db it = .error (.insufficientStock p.name)) ∧
    (∀ db user req oid onum e,
        req.items.all (fun it => decide (0 < it.quantity)) = true →
        buildItems db req.items = .error e →
        create_order db user req oid onum = (db, .error e)) ∧
    (∀ db user req oid onum e,
        (create_order db user req oid onum).2 = .error e →
        (create_order db user req oid onum).1 = db) := by
  refine ⟨?_, ?_, ?_, ?_⟩
  · intro db it hall
    cases hf : db.products.find? (fun p => p.id = it.product_id) with
    | none => unfold buildItem; rw [hf]
    | some p =>
      rw [hf] at hall
      simp only [Option.all_some, bne_iff_ne] at hall
      simp [buildItem, hf, hall]
  · intro db it p hf hstat hlt
    simp [buildItem, hf, hstat, hlt]
  · intro db user req oid onum e hval hberr
    unfold create_order
    rw [hval]
    simp only [Bool.not_true, Bool.false_eq_true, if_false, hberr]
  · intro db user req oid onum e h
    unfold create_order at h ⊢
    by_cases hv : (!req.items.all fun it => decide (0 < it.quantity)) = true
    · rw [if_pos hv]
    · rw [if_neg hv] at h ⊢
      cases hb : buildItems db req.items with
      | error e2 => rfl
      | ok built => rw [hb] at h; simp at h

/-- Witness for C5: each validation conjunct applied at a concrete input (an
archived product, a 20-unit request against 10 available, and the resulting
unchanged database). -/
theorem create_order_validates_before_persisting_witness :
    buildItem exBadDb ⟨"p2", none, 1⟩ = .error (.productNotAvailable "p2") ∧
    buildItem exDb ⟨"p1", none, 20⟩ = .error (.insufficientStock "Gadget") ∧
    create_order exDb exUser exReq20 "o9" "N9" =
      (exDb, .error (.insufficientStock "Gadget")) ∧
    (create_order exDb exUser exReq20 "o9" "N9").1 = exDb :=
  ⟨create_order_validates_before_persisting.1 exBadDb ⟨"p2", none, 1⟩ (by decide),
   create_order_validates_before_persisting.2.1 exDb ⟨"p1", none, 20⟩ exProd
     (by decide) rfl (by decide),
   create_order_validates_before_persisting.2.2.1 exDb exUser exReq20 "o9" "N9"
     (.insufficientStock "Gadget") (by decide) rfl,
   create_order_validates_before_persisting.2.2.2 exDb exUser exReq20 "o9" "N9"
     (.insufficientStock "Gadget") rfl⟩

/-- A successful reserve_inventory call leaves orders, order items and wallets
alone and appends exactly one reservation. -/
theorem reserve_inventory_ok_shape (db : Db) (a : String) (b c : Option String)
    (q : Nat) (ref : String) (db2 : Db)
    (h : reserve_inventory db a b c q ref = .ok db2) :
    db2.orders = db.orders ∧ db2.order_items = db.order_items ∧
    db2.wallets = db.wallets ∧
    ∃ r, db2.reservations = db.reservations ++ [r] := by
  unfold reserve_inventory at h
  cases hf : db.inventory.find? (fun r =>
      r.product_id = a && r.variant_id = b && some r.warehouse_id = c) with
  | none => rw [hf] at h; simp at h
  | some row =>
    rw [hf] at h
    by_cases hq : row.available_quantity < (q : Int)
    · simp [hq] at h
    · simp only [hq, if_false, Except.ok.injEq] at h
      subst h
      exact ⟨rfl, rfl, rfl, _, rfl⟩

/-- The reservation background task never touches orders, order items or
wallets, and only ever appends reservations, whether or not any single
reservation fails along the way. -/
theorem reserve_for_order_effects :
    ∀ (items : List BuiltItem) (db : Db) (oid : String),
      (reserve_inventory_for_order db oid items).orders = db.orders ∧
      (reserve_inventory_for_order db oid items).order_items = db.order_items ∧
      (reserve_inventory_for_order db oid items).wallets = db.wallets ∧
      ∃ t, (reserve_inventory_for_order db oid items).reservations =
        db.reservations ++ t := by
  intro items
  induction items with
  | nil => exact fun db oid => ⟨rfl, rfl, rfl, [], by simp [reserve_inventory_for_order]⟩
  | cons it rest ih =>
    intro db oid
    unfold reserve_inventory_for_order
    cases hr : reserve_inventory db it.product_id it.variant_id it.warehouse_id
        it.quantity oid with
    | error e => exact ⟨rfl, rfl, rfl, [], by simp⟩
    | ok db1 =>
      obtain ⟨h1, h2, h3, r, h4⟩ :=
        reserve_inventory_ok_shape db it.product_id it.variant_id it.warehouse_id
          it.quantity oid db1 hr
      obtain ⟨g1, g2, g3, t, g4⟩ := ih db1 oid
      refine ⟨g1.trans h1, g2.trans h2, g3.trans h3, [r] ++ t, ?_⟩
      rw [g4, h4, List.append_assoc]

/-- Claim C1 (amended): create_order never reserves synchronously — a
successful call leaves the reservations table untouched, persists the order,
and enqueues one reservation background task for the built items; running
that task never removes the persisted order and never releases reservations
(it only appends), so a reservation failure inside the task leaves the order
standing without compensation. -/
theorem create_order_background_reservation :
    (∀ db user req oid onum,
        (create_order db user req oid onum).2.isOk = true →
        ∃ built res o,
          (create_order db user req oid onum).2 =
            .ok (res, [.reserveInventory oid built]) ∧
          (create_order db user req oid onum).1.reservations = db.reservations ∧
          (create_order db user req oid onum).1.orders = db.orders ++ [o] ∧
          o.id = oid) ∧
    (∀ db oid items, (reserve_inventory_for_order db oid items).orders = db.orders) ∧
    (∀ db oid items, ∃ t,
        (reserve_inventory_for_order db oid items).reservations =
          db.reservations ++ t) := by
  refine ⟨?_, ?_, ?_⟩
  · intro db user req oid onum h
    obtain ⟨built, hb, heq⟩ := create_order_ok_inv db user req oid onum h
    rw [heq]
    exact ⟨built, _, _, rfl, rfl, rfl, rfl⟩
  · exact fun db oid items => (reserve_for_order_effects items db oid).1
  · exact fun db oid items => (reserve_for_order_effects items db oid).2.2.2

/-- Witness for the amended C1 at the concrete example order. -/
theorem create_order_background_reservation_witness :
    ∃ built res o,
      (create_order exDb exUser exReq "o1" "N1").2 =
        .ok (res, [.reserveInventory "o1" built]) ∧
      (create_order exDb exUser exReq "o1" "N1").1.reservations =
        exDb.reservations ∧
      (create_order exDb exUser exReq "o1" "N1").1.orders = exDb.orders ++ [o] ∧
      o.id = "o1" :=
  create_order_background_reservation.1 exDb exUser exReq "o1" "N1" (by decide)

/-- Two warehouse rows for the same product: 1 available at w1, 5 at w2.
The summed availability passes validation for a 3-unit order, but the
reservation task targets the first row warehouse, where it must fail. -/
def cexDb : Db where
  products := [{ id := "p1", retailer_id := "r1", status := "active",
                 price := 10, name := "Widget", sku := none }]
  product_variants := []
  inventory := [⟨"i1", "p1", none, "w1", 1, 0⟩, ⟨"i2", "p1", none, "w2", 5, 0⟩]
  orders := []
  order_items := []
  reservations := []
  wallets := []

/-- The 3-unit order request against cexDb. -/
def cexReq : OrderCreate where
  retailer_id := "r1"
  items := [⟨"p1", none, 3⟩]
  customer_notes := none
  payment_method := "wallet"

/-- The create_order call on the counterexample state. -/
def cexOut := create_order cexDb exUser cexReq "o1" "LNK1"

/-- The database after the response is committed and every queued background
task has run. -/
def cexFinal : Db :=
  match cexOut.2 with
  | .ok (_, tasks) => runTasks cexOut.1 tasks
  | .error _ => cexOut.1

/-- Counterexample to C1 as stated: on cexDb the order creation succeeds and
the order is persisted, yet after the background reservation task has run
(and failed at warehouse w1) the order holds no reservation at all — an order
exists without backing reservations, and creation did not fail. -/
theorem create_order_unbacked_order_cex :
    cexOut.2.isOk = true ∧
    cexFinal.orders.map (fun o => o.id) = ["o1"] ∧
    cexFinal.reservations = [] := by
  exact ⟨by decide, by decide, by decide⟩

/-- A delivered order (terminal in the spec state machine). -/
def dOrder : Order where
  id := "o1"
  order_number := "N1"
  customer_id := "c1"
  retailer_id := "r1"
  status := "delivered"
  payment_status := "completed"
  subtotal := 200
  tax_amount := 32
  shipping_amount := 25
  total_amount := 257
  payment_method := "wallet"
  customer_notes := none
  confirmed_at := some 1
  shipped_at := some 2
  delivered_at := some 3
  cancelled_at := none
  fulfillment_status := some "fulfilled"
  cancellation_reason := none

/-- A database whose only order is delivered. -/
def dDb : Db where
  products := []
  product_variants := []
  inventory := []
  orders := [dOrder]
  order_items := []
  reservations := []
  wallets := []

/-- A pending order in an otherwise empty database. -/
def pOrder : Order :=
  { dOrder with id := "o2", status := "pending", payment_status := "pending",
                confirmed_at := none, shipped_at := none, delivered_at := none,
                fulfillment_status := none }

/-- A database whose only order is pending. -/
def pDb : Db := { dDb with orders := [pOrder] }

/-- The retailer that owns both fixture orders. -/
def rUser : AuthUser := ⟨"r1", "retailer"⟩

/-- Claim C2 evidence (code_bug): because "delivered" is not a key of the
valid_transitions dict, the transition check is skipped for it and the
retailer can move a delivered order back to confirmed, contradicting the
terminal row of the state machine; the in-table part of the check does hold —
out_for_delivery on a pending order fails with the invalid-transition error
and leaves the database unchanged. -/
theorem update_status_escapes_terminal :
    (update_order_status dDb "o1" rUser "confirmed" none 7).2.isOk = true ∧
    (update_order_status dDb "o1" rUser "confirmed" none 7).1.orders.map
        (fun o => o.status) = ["confirmed"] ∧
    (update_order_status pDb "o2" rUser "out_for_delivery" none 7).2 =
      .error (.invalidTransition "pending" "out_for_delivery") ∧
    (update_order_status pDb "o2" rUser "out_for_delivery" none 7).1 = pDb :=
  ⟨by decide, by decide, rfl, rfl⟩

/-- The update_data branch for a cancellation, spelled out. -/
theorem applyStatusUpdate_cancelled (o : Order) (notes : Option String) (now : Nat) :
    applyStatusUpdate o "cancelled" notes now =
      { o with status := "cancelled", cancelled_at := some now,
               cancellation_reason := notes } := rfl

/-- applyStatusUpdate always writes exactly the requested status. -/
theorem applyStatusUpdate_status (o : Order) (s : String) (notes : Option String)
    (now : Nat) : (applyStatusUpdate o s notes now).status = s := by
  unfold applyStatusUpdate
  repeat' split
  all_goals rfl

/-- applyStatusUpdate never changes the order id. -/
theorem applyStatusUpdate_id (o : Order) (s : String) (notes : Option String)
    (now : Nat) : (applyStatusUpdate o s notes now).id = o.id := by
  unfold applyStatusUpdate
  repeat' split
  all_goals rfl

/-- Inversion of a successful update_order_status: the pattern gate passed,
the order was found, and the result is exactly the mapped write plus the
queued background tasks (inventory release first when cancelling, then the
notification). -/
theorem update_order_status_ok_inv (db : Db) (oid : String) (user : AuthUser)
    (s : String) (notes : Option String) (now : Nat)
    (h : (update_order_status db oid user s notes now).2.isOk = true) :
    statusPatternOk s = true ∧
    ∃ order, db.orders.find? (fun o => o.id = oid) = some order ∧
      update_order_status db oid user s notes now =
        ({ db with orders := db.orders.map (fun o =>
             if o.id = oid then applyStatusUpdate o s notes now else o) },
         .ok ((if s = "cancelled" then [BgTask.releaseInventory oid] else []) ++
              [BgTask.sendNotification oid order.customer_id s])) := by
  unfold update_order_status at h ⊢
  by_cases hp : statusPatternOk s = true
  · rw [if_neg (by simp [hp])] at h ⊢
    cases hf : db.orders.find? (fun o => o.id = oid) with
    | none => simp [hf, Except.isOk, Except.toBool] at h
    | some order =>
      rw [hf] at h
      refine ⟨hp, order, rfl, ?_⟩
      replace h : (update_order_status_found db order oid user s notes now).2.isOk
          = true := h
      show update_order_status_found db order oid user s notes now = _
      unfold update_order_status_found at h ⊢
      split at h
      · simp [Except.isOk, Except.toBool] at h
      · next hc1 =>
        rw [if_neg hc1]
        split at h
        · simp [Except.isOk, Except.toBool] at h
        · next hc2 =>
          rw [if_neg hc2]
          split at h
          · simp [Except.isOk, Except.toBool] at h
          · next hc3 =>
            rw [if_neg hc3]
  · rw [if_pos (by simp [hp])] at h
    simp [Except.isOk, Except.toBool] at h

/-- The release stored procedure never touches wallets. -/
theorem release_inventory_reservation_wallets (db : Db) (a : String)
    (b c : Option String) (ref : String) :
    (release_inventory_reservation db a b c ref).wallets = db.wallets := by
  unfold release_inventory_reservation
  cases hf : db.reservations.find? (fun r => r.active && r.product_id = a &&
      r.variant_id = b && some r.warehouse_id = c && r.reference_id = ref) with
  | none => rfl
  | some r => rfl

/-- The release background task never touches wallets. -/
theorem release_for_order_wallets (db : Db) (oid : String) :
    (release_inventory_for_order db oid).wallets = db.wallets := by
  unfold release_inventory_for_order
  generalize db.order_items.filter (fun it => it.order_id = oid) = items
  induction items generalizing db with
  | nil => rfl
  | cons it rest ih =>
    rw [List.foldl_cons]
    exact (ih _).trans (release_inventory_reservation_wallets db _ _ _ _)

/-- No single background task touches wallets. -/
theorem runTask_wallets (db : Db) (t : BgTask) : (runTask db t).wallets = db.wallets := by
  cases t with
  | reserveInventory oid items => exact (reserve_for_order_effects items db oid).2.2.1
  | releaseInventory oid => exact release_for_order_wallets db oid
  | sendNotification a b c => rfl

/-- Running any queue of background tasks leaves every wallet untouched. -/
theorem runTasks_wallets : ∀ (ts : List BgTask) (db : Db),
    (runTasks db ts).wallets = db.wallets := by
  intro ts
  induction ts with
  | nil => exact fun db => rfl
  | cons t rest ih =>
    intro db
    show (runTasks (runTask db t) rest).wallets = db.wallets
    exact (ih _).trans (runTask_wallets db t)

/-- A confirmed order whose payment already completed. -/
def c3Order : Order :=
  { dOrder with id := "o3", status := "confirmed", shipped_at := none,
                delivered_at := none, fulfillment_status := none }

/-- The persisted order item of c3Order. -/
def c3Item : OrderItem where
  order_id := "o3"
  product_id := "p1"
  variant_id := none
  warehouse_id := some "w1"
  product_name := "Widget"
  quantity := 2
  unit_price := 100
  total_price := 200

/-- The active reservation backing c3Order. -/
def c3Res : Reservation where
  product_id := "p1"
  variant_id := none
  warehouse_id := "w1"
  quantity := 2
  reference_type := "order"
  reference_id := "o3"
  active := true

/-- State with the confirmed paid order, its reservation (reserved = 2) and
the customer wallet holding 100. -/
def c3Db : Db where
  products := []
  product_variants := []
  inventory := [⟨"i1", "p1", none, "w1", 5, 2⟩]
  orders := [c3Order]
  order_items := [c3Item]
  reservations := [c3Res]
  wallets := [⟨"c1", 100⟩]

/-- The cancellation call on c3Db. -/
def c3Out := update_order_status c3Db "o3" rUser "cancelled" (some "stock issue") 9

/-- The state after the cancellation response and all background tasks. -/
def c3Final : Db :=
  match c3Out.2 with
  | .ok tasks => runTasks c3Out.1 tasks
  | .error _ => c3Out.1

/-- Counterexample to C3 as stated: cancelling a confirmed order whose
payment_status is completed succeeds, releases the reservation (reserved
drops from 2 to 0), yet issues no refund: the wallet ledger after the
cancellation and all of its background tasks is identical to the ledger
before, and payment_status is untouched. -/
theorem cancel_completed_no_refund_cex :
    c3Out.2.isOk = true ∧
    c3Final.wallets = c3Db.wallets ∧
    c3Final.orders.map (fun o => (o.status, o.payment_status)) =
      [("cancelled", "completed")] ∧
    c3Final.inventory.map (fun r => r.reserved_quantity) = [0] :=
  ⟨by decide, by decide, by decide, by decide⟩

/-- Claim C3 (amended): a successful transition to cancelled stamps
cancelled_at with the clock and the cancellation reason with the request
notes, and enqueues the inventory release task for the order id; releasing a
matched active reservation decrements reserved_quantity on every matching
inventory row by exactly the reserved quantity; and no background task ever
writes a wallet — the order service issues no refund on cancellation,
whatever the payment status was. -/
theorem cancel_compensation :
    (∀ db oid user notes now,
        (update_order_status db oid user "cancelled" notes now).2.isOk = true →
        ∃ tasks,
          (update_order_status db oid user "cancelled" notes now).2 = .ok tasks ∧
          BgTask.releaseInventory oid ∈ tasks ∧
          ∀ o ∈ (update_order_status db oid user "cancelled" notes now).1.orders,
            o.id = oid →
            o.status = "cancelled" ∧ o.cancelled_at = some now ∧
              o.cancellation_reason = notes) ∧
    (∀ db pid vid wid ref r,
        db.reservations.find? (fun x => x.active && x.product_id = pid &&
          x.variant_id = vid && some x.warehouse_id = wid &&
          x.reference_id = ref) = some r →
        (release_inventory_reservation db pid vid wid ref).inventory =
          db.inventory.map (fun s =>
            if s.product_id = r.product_id && s.variant_id = r.variant_id &&
                s.warehouse_id = r.warehouse_id then
              { s with reserved_quantity := s.reserved_quantity - (r.quantity : Int) }
            else s)) ∧
    (∀ (db : Db) (ts : List BgTask), (runTasks db ts).wallets = db.wallets) := by
  refine ⟨?_, ?_, ?_⟩
  · intro db oid user notes now h
    obtain ⟨hp, order, hf, heq⟩ :=
      update_order_status_ok_inv db oid user "cancelled" notes now h
    rw [heq]
    refine ⟨_, rfl, ?_, ?_⟩
    · simp
    · intro o ho hid
      obtain ⟨x, hx, hxo⟩ := List.mem_map.mp ho
      by_cases hxid : x.id = oid
      · rw [if_pos hxid] at hxo
        subst hxo
        rw [applyStatusUpdate_cancelled]
        exact ⟨rfl, rfl, rfl⟩
      · rw [if_neg hxid] at hxo
        subst hxo
        exact absurd hid hxid
  · intro db pid vid wid ref r hfind
    unfold release_inventory_reservation
    rw [hfind]
  · exact fun db ts => runTasks_wallets ts db

/-- Witness for the amended C3 at the concrete cancellation of c3Db. -/
theorem cancel_compensation_witness :
    (∃ tasks,
      (update_order_status c3Db "o3" rUser "cancelled" (some "stock issue") 9).2 =
        .ok tasks ∧
      BgTask.releaseInventory "o3" ∈ tasks ∧
      ∀ o ∈ (update_order_status c3Db "o3" rUser "cancelled"
          (some "stock issue") 9).1.orders,
        o.id = "o3" → o.status = "cancelled" ∧ o.cancelled_at = some 9 ∧
          o.cancellation_reason = some "stock issue") ∧
    (release_inventory_reservation c3Db "p1" none (some "w1") "o3").inventory =
      c3Db.inventory.map (fun s =>
        if s.product_id = c3Res.product_id && s.variant_id = c3Res.variant_id &&
            s.warehouse_id = c3Res.warehouse_id then
          { s with reserved_quantity := s.reserved_quantity - (c3Res.quantity : Int) }
        else s) ∧
    (runTasks c3Db [BgTask.releaseInventory "o3"]).wallets = c3Db.wallets :=
  ⟨cancel_compensation.1 c3Db "o3" rUser (some "stock issue") 9 (by decide),
   cancel_compensation.2.1 c3Db "p1" none (some "w1") "o3" c3Res rfl,
   cancel_compensation.2.2 c3Db [BgTask.releaseInventory "o3"]⟩

/-- Claim C10: the status-update request pattern rejects "pending" and admits
exactly the six literals of its alternation; hence a successful
update_order_status never writes "pending" (every pending order in the updated
state was already among the previous orders), while create_order assigns
"pending" as the initial status of the order it persists. -/
theorem status_never_returns_to_pending :
    statusPatternOk "pending" = false ∧
    (∀ s, statusPatternOk s = true ↔ s ∈ statusPattern) ∧
    (∀ db oid user s notes now,
        (update_order_status db oid user s notes now).2.isOk = true →
        s ≠ "pending" ∧
        ∀ o ∈ (update_order_status db oid user s notes now).1.orders,
          o.status = "pending" → o ∈ db.orders) ∧
    (∀ db user req oid onum,
        (create_order db user req oid onum).2.isOk = true →
        ∃ res tasks o,
          (create_order db user req oid onum).2 = .ok (res, tasks) ∧
          res.status = "pending" ∧
          (create_order db user req oid onum).1.orders = db.orders ++ [o] ∧
          o.status = "pending") := by
  refine ⟨rfl, ?_, ?_, ?_⟩
  · intro s
    simp [statusPatternOk]
  · intro db oid user s notes now h
    obtain ⟨hp, order, hf, heq⟩ :=
      update_order_status_ok_inv db oid user s notes now h
    constructor
    · intro hs
      subst hs
      exact absurd hp (by decide)
    · intro o ho hpend
      rw [heq] at ho
      obtain ⟨x, hx, hxo⟩ := List.mem_map.mp ho
      by_cases hxid : x.id = oid
      · rw [if_pos hxid] at hxo
        subst hxo
        rw [applyStatusUpdate_status] at hpend
        subst hpend
        exact absurd hp (by decide)
      · rw [if_neg hxid] at hxo
        subst hxo
        exact hx
  · intro db user req oid onum h
    obtain ⟨built, hb, heq⟩ := create_order_ok_inv db user req oid onum h
    rw [heq]
    exact ⟨_, _, _, rfl, rfl, rfl, rfl⟩

/-- Witness for C10: the pattern instances, a concrete successful status
update that writes a non-pending status, and the concrete created order
starting pending. -/
theorem status_never_returns_to_pending_witness :
    ("cancelled" ≠ "pending" ∧
      ∀ o ∈ (update_order_status c3Db "o3" rUser "cancelled"
          (some "stock issue") 9).1.orders,
        o.status = "pending" → o ∈ c3Db.orders) ∧
    (∃ res tasks o,
      (create_order exDb exUser exReq "o1" "N1").2 = .ok (res, tasks) ∧
      res.status = "pending" ∧
      (create_order exDb exUser exReq "o1" "N1").1.orders = exDb.orders ++ [o] ∧
      o.status = "pending") :=
  ⟨status_never_returns_to_pending.2.2.1 c3Db "o3" rUser "cancelled"
      (some "stock issue") 9 (by decide),
   status_never_returns_to_pending.2.2.2 exDb exUser exReq "o1" "N1" (by decide)⟩

end OrderSvc

end Linka
